import Mathlib

/-!
Shallow embedding of the Controme Home Assistant integration
(custom_components/controme): the refresh coordinator's snapshot builder,
the aggregation sensors, and the write-with-cooldown dispatch of the
number and switch platforms. Timestamps and numeric values are modelled
as rationals, Python ints as Lean Int, and fallible fetches as
Except/Option values.
-/

namespace Controme

/-- Truncation toward zero of a rational, modelling Python int() applied
to a float value. -/
def pyTrunc (q : ℚ) : ℤ := if q < 0 then -(Int.floor (-q)) else Int.floor q

/-- Wire encoding of a numeric parameter value: str(int(value)) in
number.py line 125 (the value is a float there). -/
def pyStr (q : ℚ) : String := toString (pyTrunc q)

/-- Round half to even of a rational, modelling Python round() on exact
values. -/
def roundHalfEven (q : ℚ) : ℤ :=
  let f := Int.floor q
  let r := q - f
  if r < 1/2 then f
  else if 1/2 < r then f + 1
  else if f % 2 = 0 then f else f + 1

/-- Python round(x, 1): round to one decimal place. -/
def pyRound1 (q : ℚ) : ℚ := (roundHalfEven (q * 10) : ℚ) / 10

/-- The fields of controme_scraper.models.Thermostat the verified layer
reads. valve_positions is a sequence of int in the data model; the
source's guard filtering entries that are None is therefore the
identity and is noted where it occurs. -/
structure Thermostat where
  device_id : String
  name : String
  is_heating : Bool
  valve_positions : List ℤ
deriving Repr, DecidableEq

/-- A standalone sensor record: identity plus reading. -/
structure Sensor where
  sensor_id : String
  temperature : ℚ
deriving Repr, DecidableEq

/-- Gateway object synthesized by the coordinator (coordinator.py lines
64-70); rooms is always empty after the refactor. -/
structure Gateway where
  gateway_id : String
  name : String
  ip_address : String
deriving Repr, DecidableEq

/-- The dict returned by a successful _async_update_data call. -/
structure Snapshot where
  thermostats : List Thermostat
  gateway : Gateway
  sensors : List Sensor
deriving Repr, DecidableEq

/-- Result of one Device Proxy fetch: the call may raise (error), or
return None, or return a list. -/
abbrev FetchResult (α : Type) := Except String (Option (List α))

/-- ContromeDataUpdateCoordinator._async_update_data (coordinator.py
lines 37-87). The thermostat fetch happens first; a None result raises
UpdateFailed inside the try block, and every exception is re-wrapped
into the typed UpdateFailed condition by the blanket except handler.
The sensor fetch only runs after the thermostat check; a None sensor
result becomes the empty list via the expression sensors or [], while a
raising sensor fetch propagates to the except handler. -/
def updateData (host : String) (thermoRes : FetchResult Thermostat)
    (sensorRes : FetchResult Sensor) : Except String Snapshot :=
  match thermoRes with
  | .error e => .error ("Error communicating with Controme: " ++ e)
  | .ok none =>
      .error ("Error communicating with Controme: " ++
        "Failed to fetch thermostats from Controme")
  | .ok (some thermostats) =>
      match sensorRes with
      | .error e => .error ("Error communicating with Controme: " ++ e)
      | .ok sensors =>
          .ok { thermostats := thermostats
                gateway := { gateway_id := "main"
                             name := "Controme Gateway"
                             ip_address := host }
                sensors := sensors.getD [] }

/-- The flat list of valve positions collected by
ContromeSystemHeatingDemandSensor.native_value (sensor.py lines
106-109): each thermostat contributes its valve_positions when that
list is truthy (non-empty). -/
def allPositions (ts : List Thermostat) : List ℤ :=
  ts.foldl
    (fun acc t =>
      if t.valve_positions.isEmpty then acc else acc ++ t.valve_positions) []

/-- ContromeSystemHeatingDemandSensor.native_value (sensor.py lines
101-113): int(sum / len) over the flat position list, None when the
list is empty. -/
def systemHeatingDemand (ts : List Thermostat) : Option ℤ :=
  let ps := allPositions ts
  if ps.isEmpty then none
  else some (pyTrunc ((ps.sum : ℚ) / (ps.length : ℚ)))

/-- The per-thermostat mean of valve_positions as an exact rational
(the room_avg intermediate in sensor.py); the source filters entries
that are None first, a no-op on an int list. None when the thermostat
has no valve positions. -/
def roomAvgQ (t : Thermostat) : Option ℚ :=
  if t.valve_positions.isEmpty then none
  else some ((t.valve_positions.sum : ℚ) / (t.valve_positions.length : ℚ))

/-- ContromeRoomBasedHeatingDemandSensor.native_value (sensor.py lines
315-330): collect one room average per thermostat with a non-empty
valve list, then round the mean of those averages to one decimal. -/
def roomBasedHeatingDemand (ts : List Thermostat) : Option ℚ :=
  let avgs := ts.foldl
    (fun acc t =>
      if t.valve_positions.isEmpty then acc
      else acc ++ [(t.valve_positions.sum : ℚ) / (t.valve_positions.length : ℚ)]) []
  if avgs.isEmpty then none
  else some (pyRound1 (avgs.sum / (avgs.length : ℚ)))

/-- Restatement of the room-based system average in the shape of the
spec text of section 4.2: the mean of the room_average values of the
thermostats that have at least one valve position, rounded to one
decimal place, undefined when that set is empty. Compared against
roomBasedHeatingDemand, which follows the source loop. -/
def roomBasedSpecAverage (ts : List Thermostat) : Option ℚ :=
  let qs := (ts.filter (fun t => !t.valve_positions.isEmpty)).map
    (fun t => (t.valve_positions.sum : ℚ) / (t.valve_positions.length : ℚ))
  if qs.isEmpty then none
  else some (pyRound1 (qs.sum / (qs.length : ℚ)))

/-- ContromeRoomsHighDemandSensor.native_value (sensor.py lines
388-401): count thermostats whose room average strictly exceeds 80. -/
def highDemandCount (ts : List Thermostat) : ℕ :=
  ts.foldl
    (fun acc t =>
      if t.valve_positions.isEmpty then acc
      else if 80 < (t.valve_positions.sum : ℚ) / (t.valve_positions.length : ℚ)
        then acc + 1 else acc) 0

/-- ContromeRoomsLowDemandSensor.native_value (sensor.py lines
461-474): count thermostats whose room average falls strictly below
20. -/
def lowDemandCount (ts : List Thermostat) : ℕ :=
  ts.foldl
    (fun acc t =>
      if t.valve_positions.isEmpty then acc
      else if (t.valve_positions.sum : ℚ) / (t.valve_positions.length : ℚ) < 20
        then acc + 1 else acc) 0

/-- Per-entity mutable state tracked by the write path: the cooldown
marker self._last_change_time, a timestamp in seconds or None. -/
structure EntityState where
  last_change_time : Option ℚ
deriving Repr, DecidableEq

/-- One call issued to web_client.set_thermostat_parameter: device
number, wire parameter name, wire value string. -/
structure ProxyCall where
  device_num : ℤ
  param_name : String
  value : String
deriving Repr, DecidableEq

/-- The observable effects of one write dispatch: the proxy call made
(none when dispatch aborted before the network), whether the clamp
warning was logged, the resulting cooldown timestamp, and whether an
out-of-cycle coordinator refresh was requested. -/
structure WriteEffects where
  call : Option ProxyCall
  warned : Bool
  last_change_time : Option ℚ
  refreshRequested : Bool
deriving Repr, DecidableEq

/-- Split a character list on every occurrence of a separator, the
semantics of Python str.split with a one-character separator. -/
def splitOnChar (c : Char) : List Char → List (List Char)
  | [] => [[]]
  | x :: xs =>
      let r := splitOnChar c xs
      if x = c then [] :: r
      else
        match r with
        | [] => [[x]]
        | y :: ys => (x :: y) :: ys

/-- Accumulate decimal digits; None on the first non-digit character,
the semantics of Python int() raising ValueError. -/
def parseNatAux (acc : ℕ) : List Char → Option ℕ
  | [] => some acc
  | d :: ds =>
      if d.isDigit then parseNatAux (acc * 10 + (d.toNat - 48)) ds else none

/-- Python int() applied to a string: an optional leading minus sign
followed by at least one decimal digit. -/
def parseIntStr (cs : List Char) : Option ℤ :=
  match cs with
  | '-' :: rest =>
      if rest.isEmpty then none
      else (parseNatAux 0 rest).map (fun n => -(n : ℤ))
  | _ => if cs.isEmpty then none else (parseNatAux 0 cs).map (fun n => (n : ℤ))

/-- Device number extraction int(device_id.split(sep)[1]) with sep the
star character (number.py line 105, switch.py line 115); None models
the caught IndexError/ValueError path. -/
def deviceNum (device_id : String) : Option ℤ :=
  match splitOnChar '*' device_id.data with
  | _ :: second :: _ => parseIntStr second
  | _ => none

/-- ContromeNumberBase._get_parameter_name (number.py lines 150-160). -/
def numberParamMap (key : String) : Option String :=
  if key = "sensor_offset" then some "sensorOffset"
  else if key = "display_brightness" then some "dispBright"
  else if key = "send_interval" then some "sendInterval"
  else if key = "deviation" then some "deviation"
  else if key = "force_send_count" then some "forceSendCount"
  else none

/-- ContromeSwitchBase._get_parameter_name (switch.py lines 163-172). -/
def switchParamMap (key : String) : Option String :=
  if key = "locked" then some "locked"
  else if key = "is_main_sensor" then some "isMainSensor"
  else if key = "temp_mode_temporary" then some "tempModeTemporary"
  else if key = "battery_saving_mode" then some "batterySavingMode"
  else none

/-- ContromeNumberBase.async_set_native_value (number.py lines 86-148).
The only range check in the source is the display-brightness upper
bound: key display_brightness with value above 30 is clamped to 30 and
logged at warning level. Then the device number and wire name are
resolved (early return on failure), the proxy is called with
str(int(value)), and only a successful proxy result sets the cooldown
timestamp to now and requests a coordinator refresh. proxySuccess is
the environment's answer to the proxy call. -/
def numberSetNativeValue (device_id key : String) (st : EntityState)
    (value : ℚ) (proxySuccess : Bool) (now : ℚ) : WriteEffects :=
  let clamped := if key = "display_brightness" ∧ 30 < value then (30 : ℚ) else value
  let warned := key = "display_brightness" ∧ 30 < value
  match deviceNum device_id with
  | none => ⟨none, warned, st.last_change_time, false⟩
  | some n =>
      match numberParamMap key with
      | none => ⟨none, warned, st.last_change_time, false⟩
      | some p =>
          let c : ProxyCall := ⟨n, p, pyStr clamped⟩
          if proxySuccess then ⟨some c, warned, some now, true⟩
          else ⟨some c, warned, st.last_change_time, false⟩

/-- ContromeSwitchBase._async_set_value (switch.py lines 111-161): the
boolean is encoded as the string checked for true and the empty string
for false, and only a successful proxy result sets the cooldown
timestamp and requests a refresh. -/
def switchSetValue (device_id key : String) (st : EntityState)
    (value : Bool) (proxySuccess : Bool) (now : ℚ) : WriteEffects :=
  match deviceNum device_id with
  | none => ⟨none, false, st.last_change_time, false⟩
  | some n =>
      match switchParamMap key with
      | none => ⟨none, false, st.last_change_time, false⟩
      | some p =>
          let c : ProxyCall := ⟨n, p, if value then "checked" else ""⟩
          if proxySuccess then ⟨some c, false, some now, true⟩
          else ⟨some c, false, st.last_change_time, false⟩

/-- The available property shared by ContromeNumberBase (number.py
lines 162-176) and ContromeSwitchBase (switch.py lines 174-188):
unavailable when the coordinator is unavailable, unavailable while
less than 60 seconds have elapsed since last_change_time, available
otherwise. -/
def entityAvailable (coordinatorAvailable : Bool) (st : EntityState)
    (now : ℚ) : Bool :=
  if !coordinatorAvailable then false
  else
    match st.last_change_time with
    | none => true
    | some t => if now - t < 60 then false else true

/-- Declared range of each numeric parameter, read off the
_attr_native_min_value and _attr_native_max_value class attributes of
the five number entity classes (number.py lines 185-186, 215-216,
240-241, 265-266, 290-291). -/
def declaredRange (key : String) : Option (ℚ × ℚ) :=
  if key = "sensor_offset" then some (-5, 5)
  else if key = "display_brightness" then some (0, 30)
  else if key = "send_interval" then some (60, 3600)
  else if key = "deviation" then some (0, 1/2)
  else if key = "force_send_count" then some (0, 10)
  else none

/-- Clamp a value into a closed interval; what the spec's section 4.4
step 1 prescribes for every parameter write. -/
def clampToRange (r : ℚ × ℚ) (v : ℚ) : ℚ :=
  max r.1 (min r.2 v)

/-- Claim C2: a parameter write whose Device Proxy call reports failure
leaves the cooldown timestamp exactly as it was before the call and
requests no out-of-cycle refresh, for the number dispatch and for the
switch dispatch alike. -/
theorem failedWriteNoSideEffects (d k : String) (st : EntityState)
    (v : ℚ) (b : Bool) (now : ℚ) :
    (numberSetNativeValue d k st v false now).last_change_time =
      st.last_change_time ∧
    (numberSetNativeValue d k st v false now).refreshRequested = false ∧
    (switchSetValue d k st b false now).last_change_time =
      st.last_change_time ∧
    (switchSetValue d k st b false now).refreshRequested = false := by
  unfold numberSetNativeValue switchSetValue
  cases deviceNum d <;> cases numberParamMap k <;> cases switchParamMap k <;>
    simp

/-- Claim C9: whenever a boolean parameter write reaches the Device
Proxy, the value argument of set_thermostat_parameter is exactly the
string checked for true and exactly the empty string for false. -/
theorem switchBooleanWireEncoding (d k : String) (st : EntityState)
    (b succ : Bool) (now : ℚ) (c : ProxyCall)
    (hc : (switchSetValue d k st b succ now).call = some c) :
    c.value = if b then "checked" else "" := by
  unfold switchSetValue at hc
  cases hn : deviceNum d <;> rw [hn] at hc
  · simp at hc
  · cases hp : switchParamMap k <;> rw [hp] at hc
    · simp at hc
    · cases succ <;> simp at hc <;> rw [← hc]

/-- Witness for claim C9 at a concrete device id, key locked, value
true. -/
theorem switchBooleanWireEncodingWitness :
    (ProxyCall.mk 1 "locked" "checked").value =
      if true then "checked" else "" :=
  switchBooleanWireEncoding "RFAktor*1" "locked" ⟨none⟩ true true 0
    ⟨1, "locked", "checked"⟩ (by decide)

/-- Claim C3 counterexample: with a successful thermostat fetch, a
sensor fetch that raises makes the whole build fail instead of
succeeding with an empty sensor list. -/
theorem sensorFetchRaiseFailsBuild :
    updateData "192.168.1.10"
      (.ok (some [⟨"RFAktor*1", "Bad", false, [50]⟩]))
      (.error "boom") =
    .error "Error communicating with Controme: boom" := rfl

/-- Claim C3 amended: a sensor fetch that returns no data (None) is
non-fatal and yields a snapshot with the fetched thermostats and an
empty sensor list, but a sensor fetch that raises an exception aborts
the whole build with the typed refresh-failed condition. -/
theorem sensorNoneNonFatal (host : String) (ts : List Thermostat)
    (ss : List Sensor) (e : String) :
    updateData host (.ok (some ts)) (.ok none) =
      .ok ⟨ts, ⟨"main", "Controme Gateway", host⟩, []⟩ ∧
    updateData host (.ok (some ts)) (.ok (some ss)) =
      .ok ⟨ts, ⟨"main", "Controme Gateway", host⟩, ss⟩ ∧
    updateData host (.ok (some ts)) (.error e) =
      .error ("Error communicating with Controme: " ++ e) := by
  unfold updateData
  exact ⟨rfl, rfl, rfl⟩

/-- Claim C4 counterexample: a thermostat fetch that returns an empty
list of records does not fail the build; it yields a snapshot with no
thermostats. -/
theorem emptyThermostatListSucceeds :
    updateData "192.168.1.10" (.ok (some [])) (.ok (some [])) =
      .ok ⟨[], ⟨"main", "Controme Gateway", "192.168.1.10"⟩, []⟩ := rfl

/-- Claim C4 amended: a thermostat fetch that returns None fails the
whole build with the same typed refresh-failed condition a transport
failure produces, while a fetch that returns an empty record list
builds a snapshot normally. -/
theorem noneThermostatFetchFails (host e : String)
    (sres : FetchResult Sensor) (ts : List Thermostat) (ss : List Sensor) :
    updateData host (.ok none) sres =
      .error ("Error communicating with Controme: " ++
        "Failed to fetch thermostats from Controme") ∧
    updateData host (.error e) sres =
      .error ("Error communicating with Controme: " ++ e) ∧
    updateData host (.ok (some ts)) (.ok (some ss)) =
      .ok ⟨ts, ⟨"main", "Controme Gateway", host⟩, ss⟩ := by
  unfold updateData
  exact ⟨rfl, rfl, rfl⟩

/-- Claim C1: a successful write sets the cooldown timestamp to the
write time, any availability query less than 60 seconds later reports
the entity unavailable, and any query 60 or more seconds later with
the coordinator available reports it available again; this holds for
the number dispatch and for the switch dispatch. -/
theorem cooldownWindowAvailability (d kn ks : String) (st : EntityState)
    (v : ℚ) (b : Bool) (t0 now : ℚ)
    (hn : ((numberSetNativeValue d kn st v true t0).call).isSome = true)
    (hs : ((switchSetValue d ks st b true t0).call).isSome = true) :
    (numberSetNativeValue d kn st v true t0).last_change_time = some t0 ∧
    (switchSetValue d ks st b true t0).last_change_time = some t0 ∧
    (∀ ca, now - t0 < 60 →
      entityAvailable ca ⟨some t0⟩ now = false) ∧
    (60 ≤ now - t0 →
      entityAvailable true ⟨some t0⟩ now = true) := by
  refine ⟨?_, ?_, ?_, ?_⟩
  · unfold numberSetNativeValue at hn ⊢
    cases hd : deviceNum d
    · rw [hd] at hn; simp at hn
    · cases hp : numberParamMap kn
      · rw [hd, hp] at hn; simp at hn
      · simp [hd, hp]
  · unfold switchSetValue at hs ⊢
    cases hd : deviceNum d
    · rw [hd] at hs; simp at hs
    · cases hp : switchParamMap ks
      · rw [hd, hp] at hs; simp at hs
      · simp [hd, hp]
  · intro ca hlt
    unfold entityAvailable
    cases ca <;> simp [hlt]
  · intro hge
    unfold entityAvailable
    simp [not_lt.mpr hge]

/-- Elapsed-time facts used to instantiate the claim C1 theorem. -/
theorem elapsedFiftyNine : (59 : ℚ) - 0 < 60 := by norm_num

/-- Elapsed-time fact for the sixty-second boundary of claim C1. -/
theorem elapsedSixty : (60 : ℚ) ≤ 60 - 0 := by norm_num

/-- Witness for claim C1: a write at time 0, queried at 59 seconds, is
unavailable; queried at exactly 60 seconds with the coordinator
available it is available again. -/
theorem cooldownWindowAvailabilityWitness :
    entityAvailable true ⟨some 0⟩ 59 = false ∧
    entityAvailable true ⟨some 0⟩ 60 = true := by
  have h59 := cooldownWindowAvailability "RFAktor*1" "sensor_offset"
    "locked" ⟨none⟩ 1 true 0 59 (by decide) (by decide)
  have h60 := cooldownWindowAvailability "RFAktor*1" "sensor_offset"
    "locked" ⟨none⟩ 1 true 0 60 (by decide) (by decide)
  exact ⟨h59.2.2.1 true elapsedFiftyNine, h60.2.2.2 elapsedSixty⟩

/-- The proxy call issued by the number dispatch, as an Option
computation over the device number and wire-name lookups. -/
theorem numberCallEq (d k : String) (st : EntityState) (v : ℚ)
    (succ : Bool) (now : ℚ) :
    (numberSetNativeValue d k st v succ now).call =
      (deviceNum d).bind (fun n => (numberParamMap k).map (fun p =>
        ⟨n, p, pyStr (if k = "display_brightness" ∧ 30 < v then 30
          else v)⟩)) := by
  unfold numberSetNativeValue
  cases hd : deviceNum d
  · simp
  · cases hp : numberParamMap k
    · simp [hp]
    · cases succ <;> simp [hp]

/-- The warning flag of the number dispatch equals the brightness
clamp condition. -/
theorem numberWarnedEq (d k : String) (st : EntityState) (v : ℚ)
    (succ : Bool) (now : ℚ) :
    (numberSetNativeValue d k st v succ now).warned =
      (decide (k = "display_brightness") && decide (30 < v)) := by
  unfold numberSetNativeValue
  cases hd : deviceNum d
  · simp
  · cases hp : numberParamMap k
    · simp [hp]
    · cases succ <;> simp [hp]

/-- Claim C8 counterexample: a requested sensor_offset of 10 lies
outside the declared range of negative 5 to 5, yet the write sends the
unclamped wire value 10; clamping to the declared range would have
sent 5. -/
theorem sensorOffsetNotClamped :
    (numberSetNativeValue "RFAktor*1" "sensor_offset" ⟨none⟩ 10 true 0).call =
      some ⟨1, "sensorOffset", "10"⟩ ∧
    (declaredRange "sensor_offset").map (fun r => clampToRange r 10) =
      some 5 ∧
    pyStr 5 = "5" ∧ ("10" : String) ≠ "5" := by
  refine ⟨by decide, ?_, rfl, by decide⟩
  simp only [declaredRange, clampToRange]
  norm_num

/-- Claim C8 amended: the only range check in the write path is the
display-brightness upper bound: a requested brightness above 30 is
clamped to 30 before being sent and the clamp is logged as a warning;
every other value, including values below a parameter's declared
minimum and out-of-range values of the other parameters, is sent
unclamped with no warning. -/
theorem onlyBrightnessClampedAbove (d : String) (st : EntityState)
    (v : ℚ) (succ : Bool) (now : ℚ) :
    (30 < v →
      (numberSetNativeValue d "display_brightness" st v succ now).warned =
        true ∧
      ∀ c, (numberSetNativeValue d "display_brightness" st v succ now).call =
          some c → c.value = pyStr 30) ∧
    (∀ k, v ≤ 30 ∨ k ≠ "display_brightness" →
      (numberSetNativeValue d k st v succ now).warned = false ∧
      ∀ c, (numberSetNativeValue d k st v succ now).call = some c →
        c.value = pyStr v) := by
  constructor
  · intro hv
    refine ⟨by rw [numberWarnedEq]; simp [hv], ?_⟩
    intro c hc
    rw [numberCallEq] at hc
    rcases Option.bind_eq_some.mp hc with ⟨n, hn, hmap⟩
    rcases Option.map_eq_some'.mp hmap with ⟨p, hp, hcc⟩
    rw [← hcc]
    simp [hv]
  · intro k hk
    have hcond : ¬ (k = "display_brightness" ∧ 30 < v) := by
      rcases hk with hv | hkne
      · exact fun h => absurd h.2 (not_lt.mpr hv)
      · exact fun h => absurd h.1 hkne
    constructor
    · rw [numberWarnedEq]
      rcases hk with hv | hkne
      · simp [not_lt.mpr hv]
      · simp [hkne]
    · intro c hc
      rw [numberCallEq] at hc
      rcases Option.bind_eq_some.mp hc with ⟨n, hn, hmap⟩
      rcases Option.map_eq_some'.mp hmap with ⟨p, hp, hcc⟩
      rw [← hcc]
      simp [hcond]

/-- Witness for the claim C8 amended theorem: brightness 35 is clamped
with a warning, sensor_offset 10 passes through without one. -/
theorem onlyBrightnessClampedAboveWitness :
    (numberSetNativeValue "RFAktor*1" "display_brightness" ⟨none⟩ 35
      true 0).warned = true ∧
    (numberSetNativeValue "RFAktor*1" "sensor_offset" ⟨none⟩ 10
      true 0).warned = false := by
  have h1 := (onlyBrightnessClampedAbove "RFAktor*1" ⟨none⟩ 35 true 0).1
    (by decide)
  have h2 := (onlyBrightnessClampedAbove "RFAktor*1" ⟨none⟩ 10 true 0).2
    "sensor_offset" (Or.inr (by decide))
  exact ⟨h1.1, h2.1⟩

/-- Evaluation of the write dispatch at a requested sensor offset of
three tenths: the wire value is the string 0. -/
theorem sensorOffsetPointThree :
    (numberSetNativeValue "RFAktor*1" "sensor_offset" ⟨none⟩ (3/10)
      true 0).call = some ⟨1, "sensorOffset", "0"⟩ := by
  rw [numberCallEq]
  rw [show deviceNum "RFAktor*1" = some 1 from by decide]
  have hcond : ¬ (("sensor_offset" : String) = "display_brightness" ∧
      30 < (3/10 : ℚ)) := by
    intro h; exact absurd h.1 (by decide)
  have hz : pyTrunc (3/10) = 0 := by unfold pyTrunc; norm_num
  have hv : pyStr (3/10) = "0" := by unfold pyStr; rw [hz]; rfl
  simp [numberParamMap, if_neg hcond, hv]

/-- Claim C10 counterexample: a requested display brightness of 35.5
reaches the Device Proxy as the string 30, the truncation of the
clamped value, not as the string 35 that the integer truncation of the
requested value would give. -/
theorem brightnessWireNotRequestedTruncation :
    (numberSetNativeValue "RFAktor*1" "display_brightness" ⟨none⟩ (71/2)
      true 0).call = some ⟨1, "dispBright", "30"⟩ ∧
    pyStr (71/2) = "35" ∧ ("30" : String) ≠ "35" := by
  refine ⟨?_, ?_, by decide⟩
  · rw [numberCallEq]
    rw [show deviceNum "RFAktor*1" = some 1 from by decide]
    have hlt : (30:ℚ) < 71/2 := by norm_num
    have hps : pyStr 30 = "30" := rfl
    simp [numberParamMap, hlt, hps]
  · have hz : pyTrunc (71/2) = 35 := by unfold pyTrunc; norm_num
    unfold pyStr
    rw [hz]
    rfl

/-- Claim C10 amended: every numeric write that reaches the Device
Proxy transmits the string of the integer truncation of the value
after the display-brightness clamp; for every write not hitting that
clamp this is the truncation of the requested value itself, so the
fractional part is discarded even for the parameters with declared
step one tenth, and a requested sensor offset of three tenths is
transmitted as the string 0. -/
theorem numericWireTruncation (d k : String) (st : EntityState) (v : ℚ)
    (succ : Bool) (now : ℚ) (c : ProxyCall)
    (hc : (numberSetNativeValue d k st v succ now).call = some c) :
    c.value = toString (pyTrunc
      (if k = "display_brightness" ∧ 30 < v then 30 else v)) ∧
    (k ≠ "display_brightness" ∨ v ≤ 30 →
      c.value = toString (pyTrunc v)) ∧
    pyTrunc (3/10) = 0 ∧
    (numberSetNativeValue "RFAktor*1" "sensor_offset" ⟨none⟩ (3/10)
      true 0).call = some ⟨1, "sensorOffset", "0"⟩ := by
  have hval : c.value = pyStr
      (if k = "display_brightness" ∧ 30 < v then 30 else v) := by
    rw [numberCallEq] at hc
    rcases Option.bind_eq_some.mp hc with ⟨n, hn, hmap⟩
    rcases Option.map_eq_some'.mp hmap with ⟨p, hp, hcc⟩
    rw [← hcc]
  refine ⟨hval, ?_, by unfold pyTrunc; norm_num, sensorOffsetPointThree⟩
  intro hk
  have hcond : ¬ (k = "display_brightness" ∧ 30 < v) := by
    rcases hk with hkne | hv
    · exact fun h => absurd h.1 hkne
    · exact fun h => absurd h.2 (not_lt.mpr hv)
  rw [hval, if_neg hcond]
  rfl

/-- Witness for claim C10 at the deviation parameter with requested
value three tenths. -/
theorem numericWireTruncationWitness :
    (ProxyCall.mk 1 "deviation" "0").value = toString (pyTrunc (3/10)) :=
  (numericWireTruncation "RFAktor*1" "deviation" ⟨none⟩ (3/10) true 0
    ⟨1, "deviation", "0"⟩ (by
      rw [numberCallEq]
      rw [show deviceNum "RFAktor*1" = some 1 from by decide]
      have hcond : ¬ (("deviation" : String) = "display_brightness" ∧
          30 < (3/10 : ℚ)) := by
        intro h; exact absurd h.1 (by decide)
      have hz : pyTrunc (3/10) = 0 := by unfold pyTrunc; norm_num
      have hv : pyStr (3/10) = "0" := by unfold pyStr; rw [hz]; rfl
      simp [numberParamMap, if_neg hcond, hv])).2.1
    (Or.inl (by decide))

/-- The position-collecting loop appends the flat union of the
valve-position lists. -/
theorem allPositionsAux (ts : List Thermostat) (a : List ℤ) :
    ts.foldl
      (fun acc t =>
        if t.valve_positions.isEmpty then acc
        else acc ++ t.valve_positions) a =
      a ++ (ts.map Thermostat.valve_positions).flatten := by
  induction ts generalizing a with
  | nil => simp
  | cons t ts ih =>
      simp only [List.foldl_cons, List.map_cons, List.flatten_cons]
      by_cases h : t.valve_positions.isEmpty
      · rw [if_pos h, ih, List.isEmpty_iff.mp h]
        simp
      · rw [if_neg h, ih, List.append_assoc]

/-- allPositions is the flat union of per-thermostat valve lists. -/
theorem allPositionsEq (ts : List Thermostat) :
    allPositions ts = (ts.map Thermostat.valve_positions).flatten := by
  unfold allPositions
  rw [allPositionsAux]
  simp

/-- Claim C5: the system average valve position is the floor of the
sum of all valve positions divided by their count, lies between 0 and
100 whenever every position does, and is absent exactly when no
thermostat has any valve position. -/
theorem systemAverageCharacterization (ts : List Thermostat) :
    (systemHeatingDemand ts = none ↔ ∀ t ∈ ts, t.valve_positions = []) ∧
    ((∀ t ∈ ts, ∀ p ∈ t.valve_positions, 0 ≤ p) →
      ∀ a, systemHeatingDemand ts = some a →
        a = ⌊(((ts.map Thermostat.valve_positions).flatten.sum : ℚ) /
              ((ts.map Thermostat.valve_positions).flatten.length : ℚ))⌋) ∧
    ((∀ t ∈ ts, ∀ p ∈ t.valve_positions, 0 ≤ p ∧ p ≤ 100) →
      ∀ a, systemHeatingDemand ts = some a → 0 ≤ a ∧ a ≤ 100) := by
  have hall := allPositionsEq ts
  have hmem : ∀ p ∈ allPositions ts, ∃ t ∈ ts, p ∈ t.valve_positions := by
    intro p hp
    rw [hall] at hp
    rcases List.mem_flatten.mp hp with ⟨l, hl, hpl⟩
    rcases List.mem_map.mp hl with ⟨t, ht, rfl⟩
    exact ⟨t, ht, hpl⟩
  refine ⟨?_, ?_, ?_⟩
  · simp only [systemHeatingDemand]
    by_cases he : (allPositions ts).isEmpty
    · simp only [he, if_pos]
      constructor
      · intro _ t ht
        have hnil := List.isEmpty_iff.mp he
        rw [hall] at hnil
        exact List.flatten_eq_nil_iff.mp hnil _ (List.mem_map_of_mem _ ht)
      · intro _; trivial
    · simp only [he, if_neg, Bool.false_eq_true, not_false_iff]
      constructor
      · intro h; exact absurd h (by simp)
      · intro h
        exfalso
        apply he
        rw [hall, List.isEmpty_iff, List.flatten_eq_nil_iff]
        intro l hl
        rcases List.mem_map.mp hl with ⟨t, ht, rfl⟩
        exact h t ht
  · intro h0 a ha
    simp only [systemHeatingDemand] at ha
    by_cases he : (allPositions ts).isEmpty
    · rw [if_pos he] at ha; exact absurd ha (by simp)
    · rw [if_neg he] at ha
      have hq : (0:ℚ) ≤ ((allPositions ts).sum : ℚ) /
          ((allPositions ts).length : ℚ) := by
        apply div_nonneg
        · have : (0:ℤ) ≤ (allPositions ts).sum := by
            apply List.sum_nonneg
            intro p hp
            rcases hmem p hp with ⟨t, ht, hpt⟩
            exact h0 t ht p hpt
          exact_mod_cast this
        · positivity
      have htr : pyTrunc (((allPositions ts).sum : ℚ) /
          ((allPositions ts).length : ℚ)) =
          ⌊(((allPositions ts).sum : ℚ) / ((allPositions ts).length : ℚ))⌋ := by
        unfold pyTrunc
        rw [if_neg (not_lt.mpr hq)]
      have ha2 := Option.some_inj.mp ha
      rw [htr] at ha2
      rw [← ha2, hall]
  · intro hb a ha
    simp only [systemHeatingDemand] at ha
    by_cases he : (allPositions ts).isEmpty
    · rw [if_pos he] at ha; exact absurd ha (by simp)
    · rw [if_neg he] at ha
      have hlenpos : 0 < ((allPositions ts).length : ℚ) := by
        have : allPositions ts ≠ [] := by
          intro h; rw [h] at he; exact he rfl
        have := List.length_pos.mpr this
        exact_mod_cast this
      have hq0 : (0:ℚ) ≤ ((allPositions ts).sum : ℚ) /
          ((allPositions ts).length : ℚ) := by
        apply div_nonneg _ (le_of_lt hlenpos)
        have : (0:ℤ) ≤ (allPositions ts).sum := by
          apply List.sum_nonneg
          intro p hp
          rcases hmem p hp with ⟨t, ht, hpt⟩
          exact (hb t ht p hpt).1
        exact_mod_cast this
      have hq100 : ((allPositions ts).sum : ℚ) /
          ((allPositions ts).length : ℚ) ≤ 100 := by
        rw [div_le_iff₀ hlenpos]
        have hsum : (allPositions ts).sum ≤
            (allPositions ts).length • (100:ℤ) := by
          apply List.sum_le_card_nsmul
          intro p hp
          rcases hmem p hp with ⟨t, ht, hpt⟩
          exact (hb t ht p hpt).2
        have hsum2 : (allPositions ts).sum ≤
            100 * ((allPositions ts).length : ℤ) := by
          rw [nsmul_eq_mul] at hsum
          linarith
        calc ((allPositions ts).sum : ℚ)
            ≤ ((100 * ((allPositions ts).length : ℤ) : ℤ) : ℚ) := by
              exact_mod_cast hsum2
          _ = 100 * ((allPositions ts).length : ℚ) := by push_cast; ring
      have htr : pyTrunc (((allPositions ts).sum : ℚ) /
          ((allPositions ts).length : ℚ)) =
          ⌊(((allPositions ts).sum : ℚ) / ((allPositions ts).length : ℚ))⌋ := by
        unfold pyTrunc
        rw [if_neg (not_lt.mpr hq0)]
      have ha2 := Option.some_inj.mp ha
      rw [htr] at ha2
      constructor
      · rw [← ha2]
        exact Int.le_floor.mpr (by exact_mod_cast hq0)
      · rw [← ha2]
        have := Int.floor_le (((allPositions ts).sum : ℚ) /
          ((allPositions ts).length : ℚ))
        have hfl : (⌊(((allPositions ts).sum : ℚ) /
            ((allPositions ts).length : ℚ))⌋ : ℚ) ≤ 100 := le_trans this hq100
        exact_mod_cast hfl

/-- Example instance of the system average: valve positions 10 and 95
average to 52 after truncation. -/
theorem systemDemandExample :
    systemHeatingDemand [⟨"RFAktor*1", "R", false, [10, 95]⟩] = some 52 := by
  have h1 : allPositions [⟨"RFAktor*1", "R", false, [10, 95]⟩] =
      [10, 95] := by decide
  unfold systemHeatingDemand
  rw [h1]
  simp only [List.isEmpty_cons, Bool.false_eq_true, if_false]
  simp
  unfold pyTrunc
  norm_num

/-- Witness for claim C5: on the two-valve example the average is
bounded by 0 and 100. -/
theorem systemAverageCharacterizationWitness :
    (0:ℤ) ≤ 52 ∧ (52:ℤ) ≤ 100 :=
  (systemAverageCharacterization
    [⟨"RFAktor*1", "R", false, [10, 95]⟩]).2.2 (by decide) 52
    systemDemandExample

/-- The room-average collecting loop appends one mean per thermostat
with a non-empty valve list. -/
theorem roomAvgsAux (ts : List Thermostat) (a : List ℚ) :
    ts.foldl
      (fun acc t =>
        if t.valve_positions.isEmpty then acc
        else acc ++ [(t.valve_positions.sum : ℚ) /
          (t.valve_positions.length : ℚ)]) a =
      a ++ ((ts.filter (fun t => !t.valve_positions.isEmpty)).map
        (fun t => (t.valve_positions.sum : ℚ) /
          (t.valve_positions.length : ℚ))) := by
  induction ts generalizing a with
  | nil => simp
  | cons t ts ih =>
      simp only [List.foldl_cons, List.filter_cons]
      by_cases h : t.valve_positions.isEmpty
      · rw [if_pos h]
        simp only [h, Bool.not_true, Bool.false_eq_true, if_false]
        exact ih a
      · rw [if_neg h]
        simp only [h, Bool.not_false, if_true, List.map_cons]
        rw [ih]
        simp

/-- Claim C6: the room-based system average follows the spec formula:
the mean of the per-thermostat valve-position averages, one term per
thermostat that has at least one valve position, rounded to one
decimal place, and it is undefined exactly when no thermostat has any
valve position. -/
theorem roomBasedAverageMatchesSpec (ts : List Thermostat) :
    roomBasedHeatingDemand ts = roomBasedSpecAverage ts ∧
    (roomBasedHeatingDemand ts = none ↔
      ∀ t ∈ ts, t.valve_positions = []) := by
  have heq := roomAvgsAux ts []
  rw [List.nil_append] at heq
  constructor
  · simp only [roomBasedHeatingDemand, roomBasedSpecAverage]
    rw [heq]
  · simp only [roomBasedHeatingDemand]
    rw [heq]
    by_cases he : ((ts.filter (fun t => !t.valve_positions.isEmpty)).map
        (fun t => (t.valve_positions.sum : ℚ) /
          (t.valve_positions.length : ℚ))).isEmpty
    · rw [if_pos he]
      have hfil : ts.filter (fun t => !t.valve_positions.isEmpty) = [] := by
        have := List.isEmpty_iff.mp he
        exact List.map_eq_nil_iff.mp this
      constructor
      · intro _ t ht
        by_contra hne
        have hmem : t ∈ ts.filter (fun t => !t.valve_positions.isEmpty) := by
          rw [List.mem_filter]
          refine ⟨ht, ?_⟩
          simp [List.isEmpty_iff, hne]
        rw [hfil] at hmem
        exact absurd hmem (List.not_mem_nil t)
      · intro _; trivial
    · rw [if_neg he]
      constructor
      · intro h; exact absurd h (by simp)
      · intro h
        exfalso
        apply he
        rw [List.isEmpty_iff, List.map_eq_nil_iff, List.filter_eq_nil_iff]
        intro t ht
        simp [List.isEmpty_iff, h t ht]

/-- A fold counting list elements that satisfy a predicate. -/
theorem foldlCountAux (p : Thermostat → Bool) (ts : List Thermostat)
    (n : ℕ) :
    ts.foldl (fun acc t => if p t then acc + 1 else acc) n =
      n + ts.countP p := by
  induction ts generalizing n with
  | nil => simp
  | cons t ts ih =>
      simp only [List.foldl_cons, List.countP_cons]
      by_cases h : p t
      · rw [if_pos h, ih]
        simp [h]
        omega
      · rw [if_neg h, ih]
        simp [h]

/-- Claim C7: the high- and low-demand room counts use strict
comparison against 80 and 20: a thermostat is counted as high demand
exactly when its room average strictly exceeds 80 and as low demand
exactly when it falls strictly below 20; averages of exactly 80 and 20
are not counted, while 80.1 is. -/
theorem demandRoomCountsStrict (ts : List Thermostat) :
    highDemandCount ts =
      ts.countP (fun t =>
        match roomAvgQ t with
        | some a => decide (80 < a)
        | none => false) ∧
    lowDemandCount ts =
      ts.countP (fun t =>
        match roomAvgQ t with
        | some a => decide (a < 20)
        | none => false) ∧
    highDemandCount [⟨"RFAktor*1", "R", false, [80]⟩] = 0 ∧
    lowDemandCount [⟨"RFAktor*1", "R", false, [20]⟩] = 0 ∧
    highDemandCount
      [⟨"RFAktor*1", "R", false,
        [80, 80, 80, 80, 80, 80, 80, 80, 80, 81]⟩] = 1 := by
  refine ⟨?_, ?_, ?_, ?_, ?_⟩
  · unfold highDemandCount
    have hfun : (fun (acc : ℕ) t =>
        if t.valve_positions.isEmpty then acc
        else if 80 < (t.valve_positions.sum : ℚ) /
            (t.valve_positions.length : ℚ) then acc + 1 else acc) =
        (fun acc t => if (match roomAvgQ t with
          | some a => decide (80 < a)
          | none => false) then acc + 1 else acc) := by
      funext acc t
      unfold roomAvgQ
      by_cases h1 : t.valve_positions.isEmpty
      · simp [h1]
      · by_cases h2 : 80 < (t.valve_positions.sum : ℚ) /
            (t.valve_positions.length : ℚ) <;> simp [h1, h2]
    rw [hfun, foldlCountAux]
    simp
  · unfold lowDemandCount
    have hfun : (fun (acc : ℕ) t =>
        if t.valve_positions.isEmpty then acc
        else if (t.valve_positions.sum : ℚ) /
            (t.valve_positions.length : ℚ) < 20 then acc + 1 else acc) =
        (fun acc t => if (match roomAvgQ t with
          | some a => decide (a < 20)
          | none => false) then acc + 1 else acc) := by
      funext acc t
      unfold roomAvgQ
      by_cases h1 : t.valve_positions.isEmpty
      · simp [h1]
      · by_cases h2 : (t.valve_positions.sum : ℚ) /
            (t.valve_positions.length : ℚ) < 20 <;> simp [h1, h2]
    rw [hfun, foldlCountAux]
    simp
  · unfold highDemandCount
    simp only [List.foldl_cons, List.foldl_nil, List.isEmpty_cons,
      Bool.false_eq_true, if_false]
    norm_num
  · unfold lowDemandCount
    simp only [List.foldl_cons, List.foldl_nil, List.isEmpty_cons,
      Bool.false_eq_true, if_false]
    norm_num
  · unfold highDemandCount
    simp only [List.foldl_cons, List.foldl_nil, List.isEmpty_cons,
      Bool.false_eq_true, if_false]
    norm_num

end Controme

